import Mathlib

/-!
Verification development for a small OAuth2 exchange client
(`src/error.rs`, `src/bridge/reqwest.rs`).

Strings from the Rust side are modelled as their UTF-8 byte sequences
(`List Nat`, each entry < 256).  The HTTP transport (`reqwest`) is modelled
as a function from the built request to either a transport error or a
response carrying a status code and a raw body; the library code under
verification never inspects the status code, only the body.
-/

/-- Byte sequence of an ASCII string literal (each char taken as its code
point, which coincides with its UTF-8 encoding for ASCII input). -/
def ascii (s : String) : List Nat :=
  s.data.map Char.toNat

/-- All entries of a byte list are actual bytes. -/
def allBytes (bs : List Nat) : Prop :=
  ∀ b ∈ bs, b < 256

instance (bs : List Nat) : Decidable (allBytes bs) :=
  inferInstanceAs (Decidable (∀ b ∈ bs, b < 256))

/-- Characters that `form_urlencoded` (used by `serde_urlencoded`) leaves
unencoded: ASCII alphanumerics and `*`, `-`, `.`, `_`. -/
def isFormUnreserved (b : Nat) : Bool :=
  (48 ≤ b && b ≤ 57) || (65 ≤ b && b ≤ 90) || (97 ≤ b && b ≤ 122) ||
    b == 42 || b == 45 || b == 46 || b == 95

/-- Uppercase hex digit for a nibble, as a byte. -/
def hexDig (n : Nat) : Nat :=
  if n < 10 then 48 + n else 55 + n

/-- Value of a hex digit byte, accepting both cases. -/
def hexVal (c : Nat) : Option Nat :=
  if 48 ≤ c ∧ c ≤ 57 then some (c - 48)
  else if 65 ≤ c ∧ c ≤ 70 then some (c - 55)
  else if 97 ≤ c ∧ c ≤ 102 then some (c - 87)
  else none

/-- Percent-encoding of one byte under the `application/x-www-form-urlencoded`
rules: unreserved bytes pass through, space becomes `+`, everything else
becomes `%XX` with uppercase hex. -/
def percentEncodeByte (b : Nat) : List Nat :=
  if isFormUnreserved b then [b]
  else if b = 32 then [43]
  else [37, hexDig (b / 16), hexDig (b % 16)]

/-- Percent-encoding of a byte sequence. -/
def formEncodeBytes : List Nat → List Nat
  | [] => []
  | b :: rest => percentEncodeByte b ++ formEncodeBytes rest

/-- Decimal digits (as ASCII bytes) of `n`, most significant first; fuel
recursion on the first argument. -/
def natBytesAux (fuel n : Nat) : List Nat :=
  match fuel, n with
  | 0, _ => []
  | _, 0 => []
  | fuel + 1, n => natBytesAux fuel (n / 10) ++ [48 + n % 10]

/-- Decimal rendering of a natural number as ASCII bytes, as `itoa` inside
`serde_urlencoded` produces for an integer field. -/
def natBytes (n : Nat) : List Nat :=
  if n = 0 then [48] else natBytesAux (n + 1) n

/-- Encoded `key=value` fragment of one form field. -/
def encPair (p : List Nat × List Nat) : List Nat :=
  formEncodeBytes p.1 ++ 61 :: formEncodeBytes p.2

/-- Join encoded fragments with `&` (byte 38). -/
def joinAmp : List (List Nat) → List Nat
  | [] => []
  | [x] => x
  | x :: xs => x ++ 38 :: joinAmp xs

/-- Model of `serde_urlencoded::to_string` on an in-order field list:
percent-encode each key and value and join with `=` and `&`. -/
def formEncodePairs (ps : List (List Nat × List Nat)) : List Nat :=
  joinAmp (ps.map encPair)

/-- Percent-decoding: `+` becomes space, `%XX` becomes the byte, anything
else passes through; malformed `%` sequences are rejected. -/
def percentDecode : List Nat → Option (List Nat)
  | [] => some []
  | b :: rest =>
    if b = 43 then (percentDecode rest).map (fun t => 32 :: t)
    else if b = 37 then
      match rest with
      | h :: l :: rest2 =>
        match hexVal h, hexVal l with
        | some hv, some lv =>
          (percentDecode rest2).map (fun t => (16 * hv + lv) :: t)
        | _, _ => none
      | _ => none
    else (percentDecode rest).map (fun t => b :: t)

/-- Split a byte list on a separator byte (the separator is dropped). -/
def splitOnByte (sep : Nat) : List Nat → List (List Nat)
  | [] => [[]]
  | b :: rest =>
    if b = sep then [] :: splitOnByte sep rest
    else
      match splitOnByte sep rest with
      | [] => [[b]]
      | x :: xs => (b :: x) :: xs

/-- Split one `key=value` fragment at the first `=` (byte 61); a fragment
without `=` yields an empty value, as `form_urlencoded::parse` does. -/
def splitPair : List Nat → List Nat × List Nat
  | [] => ([], [])
  | b :: rest =>
    if b = 61 then ([], rest)
    else
      match splitPair rest with
      | (k, v) => (b :: k, v)

/-- Percent-decode each key and value of a fragment list. -/
def decodePairs : List (List Nat) → Option (List (List Nat × List Nat))
  | [] => some []
  | p :: ps =>
    match percentDecode (splitPair p).1, percentDecode (splitPair p).2,
        decodePairs ps with
    | some k, some v, some rest => some ((k, v) :: rest)
    | _, _, _ => none

/-- Decode a full `application/x-www-form-urlencoded` string back into its
key/value pairs. -/
def formDecode (bs : List Nat) : Option (List (List Nat × List Nat)) :=
  decodePairs (splitOnByte 38 bs)

/-! ## JSON values and parsing

Model of the JSON layer behind `reqwest::Response::json` / `serde_json`.
Strings are byte sequences; numbers are restricted to integers (the request
and response shapes used by this library only contain integers, and a body
whose number does not fit the expected integer field fails to decode either
way). -/

/-- JSON value with byte-sequence strings. -/
inductive Json where
  | null
  | bool (b : Bool)
  | num (n : Int)
  | str (s : List Nat)
  | arr (xs : List Json)
  | obj (fields : List (List Nat × Json))

/-- JSON insignificant whitespace. -/
def isJsonWs (b : Nat) : Bool :=
  b == 32 || b == 9 || b == 10 || b == 13

/-- Drop leading JSON whitespace. -/
def skipWs : List Nat → List Nat
  | [] => []
  | b :: rest => if isJsonWs b then skipWs rest else b :: rest

/-- ASCII decimal digit test. -/
def isDigitByte (b : Nat) : Bool :=
  48 ≤ b && b ≤ 57

/-- Longest leading run of decimal digits. -/
def takeDigits : List Nat → List Nat × List Nat
  | [] => ([], [])
  | b :: rest =>
    if isDigitByte b then
      match takeDigits rest with
      | (ds, r) => (b :: ds, r)
    else ([], b :: rest)

/-- Numeric value of a digit-byte run. -/
def digitsToNat (ds : List Nat) : Nat :=
  ds.foldl (fun acc d => acc * 10 + (d - 48)) 0

/-- Parse a JSON integer (optional minus, no leading zeros, no fraction or
exponent; fractional or exponent forms are rejected as they cannot decode
into the integer fields used here). -/
def parseNumber (bs : List Nat) : Option (Int × List Nat) :=
  let stripped := match bs with
    | 45 :: r => (true, r)
    | _ => (false, bs)
  match takeDigits stripped.2 with
  | ([], _) => none
  | (ds, rest) =>
    if 1 < ds.length ∧ ds.headI = 48 then none
    else
      match rest with
      | 46 :: _ => none
      | 101 :: _ => none
      | 69 :: _ => none
      | _ =>
        let v : Int := Int.ofNat (digitsToNat ds)
        some (if stripped.1 then -v else v, rest)

/-- Replacement byte for a single-character JSON string escape. -/
def escByte (e : Nat) : Option Nat :=
  if e = 34 then some 34
  else if e = 92 then some 92
  else if e = 47 then some 47
  else if e = 98 then some 8
  else if e = 102 then some 12
  else if e = 110 then some 10
  else if e = 114 then some 13
  else if e = 116 then some 9
  else none

/-- Parse a JSON string body after the opening quote; raw control bytes and
unsupported escapes are rejected. -/
def parseStringBody (fuel : Nat) (bs : List Nat) : Option (List Nat × List Nat) :=
  match fuel, bs with
  | 0, _ => none
  | _, [] => none
  | fuel + 1, b :: rest =>
    if b = 34 then some ([], rest)
    else if b = 92 then
      match rest with
      | [] => none
      | e :: rest2 =>
        match escByte e with
        | none => none
        | some c =>
          match parseStringBody fuel rest2 with
          | none => none
          | some (s, r) => some (c :: s, r)
    else if b < 32 then none
    else
      match parseStringBody fuel rest with
      | none => none
      | some (s, r) => some (b :: s, r)

mutual

/-- Parse one JSON value at the head of the input (whitespace already
skipped), returning it with the remaining input. -/
def parseVal (fuel : Nat) (bs : List Nat) : Option (Json × List Nat) :=
  match fuel with
  | 0 => none
  | fuel + 1 =>
    match bs with
    | 110 :: 117 :: 108 :: 108 :: rest => some (Json.null, rest)
    | 116 :: 114 :: 117 :: 101 :: rest => some (Json.bool true, rest)
    | 102 :: 97 :: 108 :: 115 :: 101 :: rest => some (Json.bool false, rest)
    | 34 :: rest =>
      match parseStringBody rest.length rest with
      | none => none
      | some (s, r) => some (Json.str s, r)
    | 91 :: rest =>
      match parseItems fuel rest with
      | none => none
      | some (xs, r) => some (Json.arr xs, r)
    | 123 :: rest =>
      match parseFields fuel rest with
      | none => none
      | some (fs, r) => some (Json.obj fs, r)
    | _ =>
      match parseNumber bs with
      | none => none
      | some (n, r) => some (Json.num n, r)

/-- Parse the items of a JSON array after the opening bracket. -/
def parseItems (fuel : Nat) (bs : List Nat) : Option (List Json × List Nat) :=
  match fuel with
  | 0 => none
  | fuel + 1 =>
    match skipWs bs with
    | 93 :: rest => some ([], rest)
    | bs1 =>
      match parseVal fuel bs1 with
      | none => none
      | some (v, r) =>
        match skipWs r with
        | 44 :: r2 =>
          match parseItems fuel r2 with
          | none => none
          | some (vs, r3) => some (v :: vs, r3)
        | 93 :: r2 => some ([v], r2)
        | _ => none

/-- Parse the fields of a JSON object after the opening brace. -/
def parseFields (fuel : Nat) (bs : List Nat) :
    Option (List (List Nat × Json) × List Nat) :=
  match fuel with
  | 0 => none
  | fuel + 1 =>
    match skipWs bs with
    | 125 :: rest => some ([], rest)
    | 34 :: rest =>
      match parseStringBody rest.length rest with
      | none => none
      | some (k, r) =>
        match skipWs r with
        | 58 :: r2 =>
          match parseVal fuel (skipWs r2) with
          | none => none
          | some (v, r3) =>
            match skipWs r3 with
            | 44 :: r4 =>
              match parseFields fuel r4 with
              | none => none
              | some (fs, r5) => some ((k, v) :: fs, r5)
            | 125 :: r4 => some ([(k, v)], r4)
            | _ => none
        | _ => none
    | _ => none

end

/-- Parse a complete JSON document: one value with only whitespace around
it, as `serde_json`'s reader-based entry point requires. -/
def Json.parse (bs : List Nat) : Option Json :=
  let s := skipWs bs
  match parseVal (s.length + 1) s with
  | none => none
  | some (v, rest) => if skipWs rest = [] then some v else none

/-! ## Data model (`src/model.rs`) and constants (`src/constants.rs`) -/

/-- Modelled from the spec: `src/constants.rs` is not under `src/`.  The spec
fixes only that the token endpoint is a single well-known URI constant shared
by both exchanges; its concrete value is irrelevant to every claim. -/
def BASE_TOKEN_URI : String :=
  "https://discordapp.com/api/oauth2/token"

/-- Modelled from the spec: `src/constants.rs` is not under `src/`.  The spec
fixes only that the current-user endpoint is a single well-known URI
constant. -/
def BASE_ME_URI : String :=
  "https://discordapp.com/api/users/@me"

/-- Modelled from the spec: `src/model.rs` is not under `src/`.  Spec section 3:
client_id is an integer identifier, the other three fields are strings
(modelled as UTF-8 byte sequences). -/
structure AccessTokenExchangeRequest where
  client_id : Nat
  client_secret : List Nat
  code : List Nat
  redirect_uri : List Nat
deriving DecidableEq

/-- Modelled from the spec: `src/model.rs` is not under `src/`.  Spec section 3:
same shape as the code-exchange request with `refresh_token` in place of
`code`. -/
structure RefreshTokenRequest where
  client_id : Nat
  client_secret : List Nat
  refresh_token : List Nat
  redirect_uri : List Nat
deriving DecidableEq

/-- Modelled from the spec: `src/model.rs` is not under `src/`.  Spec section 3:
access_token, token_type, refresh_token and scope are strings and expires_in
is an integer number of seconds. -/
structure AccessTokenResponse where
  access_token : List Nat
  token_type : List Nat
  expires_in : Nat
  refresh_token : List Nat
  scope : List Nat
deriving DecidableEq

/-- Modelled from the spec: `src/model.rs` is not under `src/`.  The spec names
id and username among the profile fields and requires that the body
consisting of exactly those two fields decodes successfully, so they are the
required fields of the record. -/
structure AuthDiscordUser where
  id : List Nat
  username : List Nat
deriving DecidableEq

/-! ## Error taxonomy (`src/error.rs`)

The wrapped library error types are opaque to this crate; each is modelled
by the one observation `src/error.rs` makes of it, its `description`
string. -/

/-- Opaque model of `reqwest::Error`. -/
structure ReqwestError where
  description : String
deriving DecidableEq

/-- Opaque model of `serde_json::Error`. -/
structure JsonError where
  description : String
deriving DecidableEq

/-- Opaque model of `serde_urlencoded::ser::Error`. -/
structure UrlEncodeError where
  description : String
deriving DecidableEq

/-- The `Error` enum of `src/error.rs`: a closed union of the three wrapped
causes. -/
inductive Error where
  | reqwest (e : ReqwestError)
  | json (e : JsonError)
  | urlEncode (e : UrlEncodeError)
deriving DecidableEq

/-- `From<ReqwestError> for Error`. -/
def Error.fromReqwest (e : ReqwestError) : Error :=
  Error.reqwest e

/-- `From<JsonError> for Error`. -/
def Error.fromJson (e : JsonError) : Error :=
  Error.json e

/-- `From<UrlEncodeError> for Error`. -/
def Error.fromUrlEncode (e : UrlEncodeError) : Error :=
  Error.urlEncode e

/-- `StdError::description` from `src/error.rs`: delegate to the wrapped
cause. -/
def Error.description : Error → String
  | Error.reqwest inner => inner.description
  | Error.json inner => inner.description
  | Error.urlEncode inner => inner.description

/-- `Display::fmt` from `src/error.rs`: write `self.description()`. -/
def Error.display (e : Error) : String :=
  e.description

/-! ## HTTP layer -/

/-- HTTP method of a built request. -/
inductive Method where
  | get
  | post
deriving DecidableEq

/-- The observable parts of a request built through reqwest's builder:
method, target URL, the value handed to `.query(..)` if any, and the
explicitly set headers. -/
structure HttpRequest where
  method : Method
  url : String
  query : Option (List Nat)
  headers : List (String × List Nat)
deriving DecidableEq

/-- A delivered HTTP response: status code and raw body bytes. -/
structure HttpResponse where
  status : Nat
  body : List Nat
deriving DecidableEq

/-- The network side of `reqwest`'s send: reached only when the builder holds
a validly constructed request.  It either fails at the network level or
delivers an HTTP response whatever its status code. -/
def Transport : Type :=
  HttpRequest → Except ReqwestError HttpResponse

/-- `reqwest::header::CONTENT_TYPE`. -/
def CONTENT_TYPE : String :=
  "content-type"

/-! ## reqwest's request builder

`RequestBuilder` methods that fail (an invalid header value, an
unserializable `.query(..)` argument) store the error in the builder, and
`send()` returns a stored error without issuing any HTTP request. -/

/-- A header value byte must be visible ASCII, tab, or an opaque byte above
127; control bytes are rejected by `HeaderValue::try_from`. -/
def isValidHeaderByte (b : Nat) : Bool :=
  (32 ≤ b && b != 127) || b == 9

/-- Validity of a whole header value. -/
def isValidHeaderValue (bs : List Nat) : Bool :=
  bs.all isValidHeaderByte

/-- The builder error reqwest stores when `.query(&body)` is given a
top-level `String`: `serde_urlencoded`'s serializer supports only maps and
structs at top level, so this serialization always fails. -/
def queryBuilderError : ReqwestError :=
  ⟨"builder error: top-level serializer supports only maps and structs"⟩

/-- The builder error stored when a header value fails validation. -/
def invalidHeaderValueError : ReqwestError :=
  ⟨"builder error: failed to parse header value"⟩

/-- reqwest wraps the `serde_json` failure of `Response::json` as a
decode-kind `reqwest::Error`. -/
def reqwestDecodeError (e : JsonError) : ReqwestError :=
  ⟨"error decoding response body: " ++ e.description⟩

/-- `reqwest::blocking::RequestBuilder`: a pending request or a stored
error. -/
structure RequestBuilder where
  request : Except ReqwestError HttpRequest

/-- `Client::post`. -/
def ReqwestClient.post (url : String) : RequestBuilder :=
  ⟨Except.ok { method := Method.post, url := url, query := none, headers := [] }⟩

/-- `Client::get`. -/
def ReqwestClient.get (url : String) : RequestBuilder :=
  ⟨Except.ok { method := Method.get, url := url, query := none, headers := [] }⟩

/-- `RequestBuilder::header`: validate the value; an invalid value poisons
the builder. -/
def RequestBuilder.header (b : RequestBuilder) (name : String)
    (value : List Nat) : RequestBuilder :=
  match b.request with
  | Except.error e => ⟨Except.error e⟩
  | Except.ok req =>
    if isValidHeaderValue value then
      ⟨Except.ok { req with headers := req.headers ++ [(name, value)] }⟩
    else ⟨Except.error invalidHeaderValueError⟩

/-- `RequestBuilder::query(&value)` where `value` is a `String`: serializing
a top-level string into query pairs always fails, and the error is stored in
the builder; the value itself is discarded. -/
def RequestBuilder.query (b : RequestBuilder) (_value : List Nat) :
    RequestBuilder :=
  match b.request with
  | Except.error e => ⟨Except.error e⟩
  | Except.ok _ => ⟨Except.error queryBuilderError⟩

/-- `RequestBuilder::send`: a stored builder error is returned without any
network call; otherwise the transport executes the request. -/
def RequestBuilder.send (b : RequestBuilder) (transport : Transport) :
    Except ReqwestError HttpResponse :=
  match b.request with
  | Except.error e => Except.error e
  | Except.ok req => transport req

/-! ## Serialization and deserialization of the model types -/

/-- Field list of `AccessTokenExchangeRequest` in declaration order, as the
derived `Serialize` walks it. -/
def accessTokenExchangePairs (r : AccessTokenExchangeRequest) :
    List (List Nat × List Nat) :=
  [(ascii "client_id", natBytes r.client_id),
   (ascii "client_secret", r.client_secret),
   (ascii "code", r.code),
   (ascii "redirect_uri", r.redirect_uri)]

/-- Field list of `RefreshTokenRequest` in declaration order. -/
def refreshTokenPairs (r : RefreshTokenRequest) :
    List (List Nat × List Nat) :=
  [(ascii "client_id", natBytes r.client_id),
   (ascii "client_secret", r.client_secret),
   (ascii "refresh_token", r.refresh_token),
   (ascii "redirect_uri", r.redirect_uri)]

/-- `serde_urlencoded::to_string` on an `AccessTokenExchangeRequest`: a flat
struct of integer and string fields, on which serialization always
succeeds. -/
def serializeAccessTokenExchangeRequest (r : AccessTokenExchangeRequest) :
    Except UrlEncodeError (List Nat) :=
  Except.ok (formEncodePairs (accessTokenExchangePairs r))

/-- `serde_urlencoded::to_string` on a `RefreshTokenRequest`. -/
def serializeRefreshTokenRequest (r : RefreshTokenRequest) :
    Except UrlEncodeError (List Nat) :=
  Except.ok (formEncodePairs (refreshTokenPairs r))

/-- Unique lookup of a field in a parsed JSON object: missing and duplicate
known fields are both deserialization errors for a derived `Deserialize`. -/
def getField (fields : List (List Nat × Json)) (key : List Nat) : Option Json :=
  match fields.filter (fun f => f.1 == key) with
  | [f] => some f.2
  | _ => none

/-- String field accessor. -/
def Json.asStr : Json → Option (List Nat)
  | Json.str s => some s
  | _ => none

/-- Unsigned 64-bit integer field accessor. -/
def Json.asU64 : Json → Option Nat
  | Json.num n => if 0 ≤ n ∧ n < (2 : Int) ^ 64 then some n.toNat else none
  | _ => none

/-- `serde_json` deserialization of an `AccessTokenResponse`: the body must be
one JSON object providing every declared field once; unknown fields are
ignored.  Deserialization is all-or-nothing — there is no partially
populated result. -/
def decodeAccessTokenResponse (body : List Nat) :
    Except JsonError AccessTokenResponse :=
  match Json.parse body with
  | none => Except.error ⟨"invalid JSON in response body"⟩
  | some (Json.obj fields) =>
    match (getField fields (ascii "access_token")).bind Json.asStr,
        (getField fields (ascii "token_type")).bind Json.asStr,
        (getField fields (ascii "expires_in")).bind Json.asU64,
        (getField fields (ascii "refresh_token")).bind Json.asStr,
        (getField fields (ascii "scope")).bind Json.asStr with
    | some a, some t, some e, some rt, some sc =>
      Except.ok ⟨a, t, e, rt, sc⟩
    | _, _, _, _, _ =>
      Except.error ⟨"response body does not match AccessTokenResponse"⟩
  | some _ => Except.error ⟨"response body is not a JSON object"⟩

/-- `serde_json` deserialization of an `AuthDiscordUser`. -/
def decodeAuthDiscordUser (body : List Nat) :
    Except JsonError AuthDiscordUser :=
  match Json.parse body with
  | none => Except.error ⟨"invalid JSON in response body"⟩
  | some (Json.obj fields) =>
    match (getField fields (ascii "id")).bind Json.asStr,
        (getField fields (ascii "username")).bind Json.asStr with
    | some i, some u => Except.ok ⟨i, u⟩
    | _, _ =>
      Except.error ⟨"response body does not match AuthDiscordUser"⟩
  | some _ => Except.error ⟨"response body is not a JSON object"⟩

/-- `blocking::Response::json::<AccessTokenResponse>()`: a body that does
not deserialize yields a decode-kind `reqwest::Error`. -/
def responseJsonAccessToken (body : List Nat) :
    Except ReqwestError AccessTokenResponse :=
  match decodeAccessTokenResponse body with
  | Except.error e => Except.error (reqwestDecodeError e)
  | Except.ok v => Except.ok v

/-- `blocking::Response::json::<AuthDiscordUser>()`. -/
def responseJsonAuthDiscordUser (body : List Nat) :
    Except ReqwestError AuthDiscordUser :=
  match decodeAuthDiscordUser body with
  | Except.error e => Except.error (reqwestDecodeError e)
  | Except.ok v => Except.ok v

/-! ## The three operations (`src/bridge/reqwest.rs`)

Each operation is the body of the corresponding trait method of
`DiscordOAuthReqwestRequester for ReqwestClient`, with reqwest's network
layer abstracted as the `Transport` argument and each `?` written out as a
match that applies the corresponding `From` conversion.  Both failing calls
in a pipeline — `send()` (which also surfaces stored builder errors) and
`.json()` — return `reqwest::Error`, so their `?` converts through
`From<ReqwestError>`. -/

/-- `exchange_code`: serialize the request with `serde_urlencoded`, then
build `post(BASE_TOKEN_URI).header(CONTENT_TYPE, ..).query(&body)` — which
stores a builder error, since a top-level string cannot be serialized into
query pairs — send, and decode the response body as JSON. -/
def exchange_code (send : Transport) (request : AccessTokenExchangeRequest) :
    Except Error AccessTokenResponse :=
  match serializeAccessTokenExchangeRequest request with
  | Except.error e => Except.error (Error.fromUrlEncode e)
  | Except.ok body =>
    match (((ReqwestClient.post BASE_TOKEN_URI).header CONTENT_TYPE
        (ascii "application/x-www-form-urlencoded")).query body).send send with
    | Except.error e => Except.error (Error.fromReqwest e)
    | Except.ok response =>
      match responseJsonAccessToken response.body with
      | Except.error e => Except.error (Error.fromReqwest e)
      | Except.ok v => Except.ok v

/-- `exchange_refresh_token`: the same pipeline against the same endpoint,
without the explicit content-type header; `.query(&body)` stores the same
builder error. -/
def exchange_refresh_token (send : Transport) (request : RefreshTokenRequest) :
    Except Error AccessTokenResponse :=
  match serializeRefreshTokenRequest request with
  | Except.error e => Except.error (Error.fromUrlEncode e)
  | Except.ok body =>
    match ((ReqwestClient.post BASE_TOKEN_URI).query body).send send with
    | Except.error e => Except.error (Error.fromReqwest e)
    | Except.ok response =>
      match responseJsonAccessToken response.body with
      | Except.error e => Except.error (Error.fromReqwest e)
      | Except.ok v => Except.ok v

/-- `fetch_user`: GET `BASE_ME_URI` with an `Authorization: Bearer <token>`
header — validated by the builder — and decode the body as the user
record. -/
def fetch_user (send : Transport) (token : List Nat) :
    Except Error AuthDiscordUser :=
  match ((ReqwestClient.get BASE_ME_URI).header "Authorization"
      (ascii "Bearer " ++ token)).send send with
  | Except.error e => Except.error (Error.fromReqwest e)
  | Except.ok response =>
    match responseJsonAuthDiscordUser response.body with
    | Except.error e => Except.error (Error.fromReqwest e)
    | Except.ok v => Except.ok v

/-! ## Factored views of the pipelines, for stating the contracts -/

/-- The single HTTP request `fetch_user` issues when the constructed header
value is valid. -/
def fetchUserHttpRequest (token : List Nat) : HttpRequest :=
  { method := Method.get, url := BASE_ME_URI, query := none,
    headers := [("Authorization", ascii "Bearer " ++ token)] }

/-- Tail of `fetch_user` after a validly built request: map the transport
outcome to the caller's result, decoding the body on delivery. -/
def handleUserResponse (r : Except ReqwestError HttpResponse) :
    Except Error AuthDiscordUser :=
  match r with
  | Except.error e => Except.error (Error.fromReqwest e)
  | Except.ok response =>
    match responseJsonAuthDiscordUser response.body with
    | Except.error e => Except.error (Error.fromReqwest e)
    | Except.ok v => Except.ok v

/-- `exchange_code` returns the stored query builder error on every call:
`.query(&body)` fails to serialize the top-level string, and `send()`
returns the stored error without issuing any request. -/
theorem exchange_code_always_builder_error (send : Transport)
    (r : AccessTokenExchangeRequest) :
    exchange_code send r = Except.error (Error.reqwest queryBuilderError) := by
  rfl

/-- `exchange_refresh_token` fails identically, before any request. -/
theorem exchange_refresh_token_always_builder_error (send : Transport)
    (r : RefreshTokenRequest) :
    exchange_refresh_token send r
      = Except.error (Error.reqwest queryBuilderError) := by
  rfl

/-- Factoring for `fetch_user` under a valid header value: one transport
call on the described GET followed by response handling. -/
theorem fetch_user_factor (send : Transport) (token : List Nat)
    (h : isValidHeaderValue (ascii "Bearer " ++ token) = true) :
    fetch_user send token
      = handleUserResponse (send (fetchUserHttpRequest token)) := by
  unfold fetch_user handleUserResponse fetchUserHttpRequest ReqwestClient.get
    RequestBuilder.header RequestBuilder.send
  simp [h]

/-- A token whose appended header value is invalid poisons the builder:
`send()` fails with the stored header error and no request reaches the
transport. -/
theorem fetch_user_invalid_header (send : Transport) (token : List Nat)
    (h : isValidHeaderValue (ascii "Bearer " ++ token) = false) :
    fetch_user send token
      = Except.error (Error.reqwest invalidHeaderValueError) := by
  unfold fetch_user ReqwestClient.get RequestBuilder.header RequestBuilder.send
  simp [h, Error.fromReqwest]

/-- Decidable equality for `Except`, for evaluating concrete outcomes. -/
instance {ε α : Type} [DecidableEq ε] [DecidableEq α] : DecidableEq (Except ε α) :=
  fun x y =>
    match x, y with
    | Except.ok a, Except.ok b =>
      if h : a = b then isTrue (by rw [h])
      else isFalse (by intro he; cases he; exact h rfl)
    | Except.error a, Except.error b =>
      if h : a = b then isTrue (by rw [h])
      else isFalse (by intro he; cases he; exact h rfl)
    | Except.ok _, Except.error _ => isFalse (by intro he; cases he)
    | Except.error _, Except.ok _ => isFalse (by intro he; cases he)

/-! ## Round-trip of the form encoding -/

set_option maxRecDepth 4000 in
/-- Unreserved bytes are neither `+` nor `%`, so the decoder passes them
through unchanged. -/
theorem unreserved_not_special :
    ∀ b < 256, isFormUnreserved b = true → ¬b = 43 ∧ ¬b = 37 := by
  decide

/-- Hex digits round-trip on nibbles. -/
theorem hexVal_hexDig : ∀ n < 16, hexVal (hexDig n) = some n := by
  decide

/-- Decoder step on a plain byte. -/
theorem percentDecode_cons_plain (b : Nat) (rest : List Nat)
    (h43 : ¬b = 43) (h37 : ¬b = 37) :
    percentDecode (b :: rest) = (percentDecode rest).map (fun t => b :: t) := by
  match rest with
  | [] => simp [percentDecode, h43, h37]
  | [x] => simp [percentDecode, h43, h37]
  | h :: l :: r => simp [percentDecode, h43, h37]

/-- Decoder step on `+`. -/
theorem percentDecode_cons_plus (rest : List Nat) :
    percentDecode (43 :: rest) = (percentDecode rest).map (fun t => 32 :: t) := by
  match rest with
  | [] => simp [percentDecode]
  | [x] => simp [percentDecode]
  | h :: l :: r => simp [percentDecode]

/-- Decoder step on a valid `%XX` sequence. -/
theorem percentDecode_cons_esc (h l hv lv : Nat) (rest : List Nat)
    (h1 : hexVal h = some hv) (h2 : hexVal l = some lv) :
    percentDecode (37 :: h :: l :: rest)
      = (percentDecode rest).map (fun t => (16 * hv + lv) :: t) := by
  simp [percentDecode, h1, h2]

/-- Decoding after encoding one byte prepends that byte. -/
theorem percentDecode_encByte (b : Nat) (hb : b < 256) (rest : List Nat) :
    percentDecode (percentEncodeByte b ++ rest)
      = (percentDecode rest).map (fun t => b :: t) := by
  by_cases h1 : isFormUnreserved b
  · obtain ⟨h43, h37⟩ := unreserved_not_special b hb h1
    have he : percentEncodeByte b = [b] := by simp [percentEncodeByte, h1]
    rw [he, List.singleton_append, percentDecode_cons_plain b rest h43 h37]
  · by_cases h32 : b = 32
    · subst h32
      have he : percentEncodeByte 32 = [43] := by decide
      rw [he, List.singleton_append, percentDecode_cons_plus]
    · have he : percentEncodeByte b = [37, hexDig (b / 16), hexDig (b % 16)] := by
        simp [percentEncodeByte, h1, h32]
      have hv1 : hexVal (hexDig (b / 16)) = some (b / 16) :=
        hexVal_hexDig _ (by omega)
      have hv2 : hexVal (hexDig (b % 16)) = some (b % 16) :=
        hexVal_hexDig _ (by omega)
      have hb16 : 16 * (b / 16) + b % 16 = b := by omega
      rw [he]
      show percentDecode (37 :: hexDig (b / 16) :: hexDig (b % 16) :: rest) = _
      rw [percentDecode_cons_esc _ _ _ _ rest hv1 hv2, hb16]

/-- Decoding after encoding a byte sequence prepends that sequence. -/
theorem percentDecode_encBytes (bs : List Nat) (h : allBytes bs) (rest : List Nat) :
    percentDecode (formEncodeBytes bs ++ rest)
      = (percentDecode rest).map (fun t => bs ++ t) := by
  induction bs with
  | nil =>
    simp only [formEncodeBytes, List.nil_append]
    cases percentDecode rest <;> simp
  | cons b bs ih =>
    have hb : b < 256 := h b (List.mem_cons_self _ _)
    have h2 : allBytes bs := fun x hx => h x (List.mem_cons_of_mem _ hx)
    simp only [formEncodeBytes, List.append_assoc]
    rw [percentDecode_encByte b hb, ih h2]
    cases percentDecode rest <;> simp

/-- Percent-decoding inverts percent-encoding on byte sequences. -/
theorem percentDecode_enc (bs : List Nat) (h : allBytes bs) :
    percentDecode (formEncodeBytes bs) = some bs := by
  have := percentDecode_encBytes bs h []
  simpa [percentDecode] using this

set_option maxRecDepth 4000 in
/-- Encoded output never contains a raw `&` or `=`. -/
theorem encByte_ne_special :
    ∀ b < 256, ∀ c ∈ percentEncodeByte b, ¬c = 38 ∧ ¬c = 61 := by
  decide

/-- Encoded byte sequences never contain raw `&` or `=`. -/
theorem encBytes_ne_special (bs : List Nat) (h : allBytes bs) :
    ∀ c ∈ formEncodeBytes bs, ¬c = 38 ∧ ¬c = 61 := by
  induction bs with
  | nil => intro c hc; simp [formEncodeBytes] at hc
  | cons b bs ih =>
    intro c hc
    simp only [formEncodeBytes, List.mem_append] at hc
    cases hc with
    | inl hc => exact encByte_ne_special b (h b (List.mem_cons_self _ _)) c hc
    | inr hc => exact ih (fun x hx => h x (List.mem_cons_of_mem _ hx)) c hc

/-- Splitting at the first `=` inverts fragment construction. -/
theorem splitPair_append (xs ys : List Nat) (h : 61 ∉ xs) :
    splitPair (xs ++ 61 :: ys) = (xs, ys) := by
  induction xs with
  | nil => simp [splitPair]
  | cons b bs ih =>
    have hb : ¬b = 61 := by
      intro he; subst he; exact h (List.mem_cons_self _ _)
    have h2 : 61 ∉ bs := fun hm => h (List.mem_cons_of_mem _ hm)
    simp [splitPair, hb, ih h2]

/-- A separator-free piece splits to itself. -/
theorem splitOnByte_no_sep (sep : Nat) (p : List Nat) (h : sep ∉ p) :
    splitOnByte sep p = [p] := by
  induction p with
  | nil => rfl
  | cons b bs ih =>
    have hb : ¬b = sep := by
      intro he; subst he; exact h (List.mem_cons_self _ _)
    have h2 : sep ∉ bs := fun hm => h (List.mem_cons_of_mem _ hm)
    simp [splitOnByte, hb, ih h2]

/-- Splitting peels one separator-free piece off the front. -/
theorem splitOnByte_append (sep : Nat) (p rest : List Nat) (h : sep ∉ p) :
    splitOnByte sep (p ++ sep :: rest) = p :: splitOnByte sep rest := by
  induction p with
  | nil => simp [splitOnByte]
  | cons b bs ih =>
    have hb : ¬b = sep := by
      intro he; subst he; exact h (List.mem_cons_self _ _)
    have h2 : sep ∉ bs := fun hm => h (List.mem_cons_of_mem _ hm)
    simp [splitOnByte, hb, ih h2]

/-- Splitting on `&` inverts joining `&`-free pieces. -/
theorem splitOnByte_joinAmp (ps : List (List Nat)) (hne : ps ≠ [])
    (h : ∀ p ∈ ps, 38 ∉ p) :
    splitOnByte 38 (joinAmp ps) = ps := by
  induction ps with
  | nil => exact absurd rfl hne
  | cons p ps ih =>
    cases ps with
    | nil =>
      simp only [joinAmp]
      exact splitOnByte_no_sep _ _ (h p (List.mem_cons_self _ _))
    | cons q qs =>
      have hj : joinAmp (p :: q :: qs) = p ++ 38 :: joinAmp (q :: qs) := rfl
      rw [hj, splitOnByte_append _ _ _ (h p (List.mem_cons_self _ _)),
        ih (List.cons_ne_nil _ _) (fun x hx => h x (List.mem_cons_of_mem _ hx))]

/-- Decoding the encoded fragments recovers the original pairs. -/
theorem decodePairs_enc (ps : List (List Nat × List Nat))
    (h : ∀ p ∈ ps, allBytes p.1 ∧ allBytes p.2) :
    decodePairs (ps.map encPair) = some ps := by
  induction ps with
  | nil => rfl
  | cons p ps ih =>
    obtain ⟨h1, h2⟩ := h p (List.mem_cons_self _ _)
    have hk61 : 61 ∉ formEncodeBytes p.1 := fun hm =>
      (encBytes_ne_special p.1 h1 61 hm).2 rfl
    have hsp : splitPair (encPair p)
        = (formEncodeBytes p.1, formEncodeBytes p.2) := by
      have : encPair p = formEncodeBytes p.1 ++ 61 :: formEncodeBytes p.2 := rfl
      rw [this, splitPair_append _ _ hk61]
    simp [decodePairs, hsp, percentDecode_enc _ h1, percentDecode_enc _ h2,
      ih (fun x hx => h x (List.mem_cons_of_mem _ hx))]

/-- Full round trip: form-decoding the form-encoding of a nonempty field
list recovers exactly that field list. -/
theorem formDecode_formEncodePairs (ps : List (List Nat × List Nat))
    (hne : ps ≠ []) (h : ∀ p ∈ ps, allBytes p.1 ∧ allBytes p.2) :
    formDecode (formEncodePairs ps) = some ps := by
  have hmapne : ps.map encPair ≠ [] := by
    intro he
    exact hne (List.map_eq_nil_iff.mp he)
  have hfree : ∀ x ∈ ps.map encPair, 38 ∉ x := by
    intro x hx
    obtain ⟨p, hp, rfl⟩ := List.mem_map.mp hx
    obtain ⟨h1, h2⟩ := h p hp
    intro hm
    have : encPair p = formEncodeBytes p.1 ++ 61 :: formEncodeBytes p.2 := rfl
    rw [this] at hm
    rcases List.mem_append.mp hm with hm1 | hm2
    · exact (encBytes_ne_special p.1 h1 38 hm1).1 rfl
    · rcases List.mem_cons.mp hm2 with he | hm3
      · omega
      · exact (encBytes_ne_special p.2 h2 38 hm3).1 rfl
  unfold formDecode formEncodePairs
  rw [splitOnByte_joinAmp _ hmapne hfree, decodePairs_enc _ h]

/-- Decimal digit bytes are bytes. -/
theorem natBytesAux_allBytes (fuel : Nat) :
    ∀ n, allBytes (natBytesAux fuel n) := by
  induction fuel with
  | zero => intro n b hb; simp [natBytesAux] at hb
  | succ fuel ih =>
    intro n b hb
    cases n with
    | zero => simp [natBytesAux] at hb
    | succ m =>
      simp only [natBytesAux] at hb
      rcases List.mem_append.mp hb with h1 | h2
      · exact ih _ b h1
      · have : b = 48 + (m + 1) % 10 := by simpa using h2
        have : (m + 1) % 10 < 10 := Nat.mod_lt _ (by omega)
        omega

/-- Decimal renderings are byte sequences. -/
theorem natBytes_allBytes (n : Nat) : allBytes (natBytes n) := by
  unfold natBytes
  by_cases h : n = 0
  · intro b hb; simp [h] at hb; omega
  · simp only [h, if_false]
    exact natBytesAux_allBytes _ _

/-! ## Concrete fixtures from the spec's acceptance tests -/

/-- The fixed token-endpoint JSON document of the spec's acceptance test. -/
def tokenDoc : List Nat :=
  ascii "\x7b\"access_token\":\"abc\",\"token_type\":\"Bearer\",\"expires_in\":604800,\"refresh_token\":\"def\",\"scope\":\"identify\"\x7d"

/-- The response value that document decodes to. -/
def tokenDocValue : AccessTokenResponse :=
  ⟨ascii "abc", ascii "Bearer", 604800, ascii "def", ascii "identify"⟩

/-- The current-user JSON document of the spec's acceptance test. -/
def userDoc : List Nat :=
  ascii "\x7b\"id\":\"123\",\"username\":\"alice\"\x7d"

/-! ## Claims -/

/-- C1: for every delivered response with a non-2xx status or a body that
does not decode as an `AccessTokenResponse`, both `exchange_code` and
`exchange_refresh_token` return an error and no (partially populated)
`AccessTokenResponse` reaches the caller.  This holds degenerately: the
stored query builder error makes both exchanges fail on every call. -/
theorem c1_non2xx_or_malformed_fails (status : Nat) (body : List Nat)
    (r : AccessTokenExchangeRequest) (rr : RefreshTokenRequest)
    (_h : ¬(200 ≤ status ∧ status ≤ 299)
      ∨ (∃ e, decodeAccessTokenResponse body = Except.error e)) :
    (∃ err, exchange_code (fun _ => Except.ok ⟨status, body⟩) r = Except.error err)
    ∧ (∃ err, exchange_refresh_token (fun _ => Except.ok ⟨status, body⟩) rr
        = Except.error err)
    ∧ (∀ v, exchange_code (fun _ => Except.ok ⟨status, body⟩) r ≠ Except.ok v)
    ∧ (∀ v, exchange_refresh_token (fun _ => Except.ok ⟨status, body⟩) rr
        ≠ Except.ok v) := by
  refine ⟨⟨_, exchange_code_always_builder_error _ r⟩,
    ⟨_, exchange_refresh_token_always_builder_error _ rr⟩, ?_, ?_⟩
  · intro v hv
    rw [exchange_code_always_builder_error] at hv
    cases hv
  · intro v hv
    rw [exchange_refresh_token_always_builder_error] at hv
    cases hv

/-- C1 (witness): a concrete 404 delivery of a malformed body fails. -/
theorem c1_non2xx_or_malformed_fails_witness :
    ∃ err, exchange_code (fun _ => Except.ok ⟨404, ascii "oops"⟩) ⟨1, [], [], []⟩
      = Except.error err :=
  (c1_non2xx_or_malformed_fails 404 (ascii "oops") ⟨1, [], [], []⟩ ⟨1, [], [], []⟩
    (Or.inl (by decide))).1

/-- C2 (code bug): the claimed POST is never issued.  Serializing the
request does succeed, but `.query(&body)` on the resulting top-level string
stores a builder error, so `send()` fails on every call without any HTTP
request and no response body is ever deserialized. -/
theorem c2_exchange_code_never_sends (send : Transport)
    (r : AccessTokenExchangeRequest) :
    serializeAccessTokenExchangeRequest r
        = Except.ok (formEncodePairs (accessTokenExchangePairs r))
    ∧ (((ReqwestClient.post BASE_TOKEN_URI).header CONTENT_TYPE
          (ascii "application/x-www-form-urlencoded")).query
          (formEncodePairs (accessTokenExchangePairs r))).request
        = Except.error queryBuilderError
    ∧ exchange_code send r = Except.error (Error.reqwest queryBuilderError)
    ∧ ∀ v, exchange_code send r ≠ Except.ok v := by
  refine ⟨rfl, rfl, exchange_code_always_builder_error send r, ?_⟩
  intro v hv
  rw [exchange_code_always_builder_error] at hv
  cases hv

/-- C3 (code bug): even when the endpoint would deliver the fixed token
document — which by itself decodes to the expected response — `exchange_code`
returns the stored builder transport error instead of succeeding. -/
theorem c3_fixed_document_still_fails (r : AccessTokenExchangeRequest)
    (status : Nat) :
    decodeAccessTokenResponse tokenDoc = Except.ok tokenDocValue
    ∧ exchange_code (fun _ => Except.ok ⟨status, tokenDoc⟩) r
        = Except.error (Error.reqwest queryBuilderError)
    ∧ ∀ v, exchange_code (fun _ => Except.ok ⟨status, tokenDoc⟩) r
        ≠ Except.ok v := by
  refine ⟨by decide, exchange_code_always_builder_error _ r, ?_⟩
  intro v hv
  rw [exchange_code_always_builder_error] at hv
  cases hv

/-- C4 (counterexample): a token containing a control byte (a newline)
poisons the builder — the call fails with the header builder error for any
transport, even one delivering the parseable user document, so no GET
carrying the claimed header is issued and no record is returned. -/
theorem c4_counterexample_control_byte_token :
    fetch_user (fun _ => Except.ok ⟨200, userDoc⟩) [10]
        = Except.error (Error.reqwest invalidHeaderValueError)
    ∧ fetch_user (fun _ => Except.error ⟨"network down"⟩) [10]
        = Except.error (Error.reqwest invalidHeaderValueError) := by
  constructor <;> decide

/-- C4 (amended): for every token whose appended header value is valid (no
control bytes), `fetch_user` issues exactly one GET on the fixed
current-user endpoint carrying exactly `Authorization: Bearer <token>` and
returns the fully decoded user record on a parseable response (it returns
the record, not a mere validation); the concrete acceptance case holds. -/
theorem c4_fetch_user_returns_record (send : Transport) (token : List Nat)
    (status : Nat) (h : isValidHeaderValue (ascii "Bearer " ++ token) = true) :
    fetch_user send token = handleUserResponse (send (fetchUserHttpRequest token))
    ∧ (fetchUserHttpRequest token).method = Method.get
    ∧ (fetchUserHttpRequest token).url = BASE_ME_URI
    ∧ (fetchUserHttpRequest token).headers
        = [("Authorization", ascii "Bearer " ++ token)]
    ∧ (∀ resp u, decodeAuthDiscordUser resp.body = Except.ok u →
        fetch_user (fun _ => Except.ok resp) token = Except.ok u)
    ∧ fetch_user (fun _ => Except.ok ⟨status, userDoc⟩) (ascii "sometoken")
        = Except.ok ⟨ascii "123", ascii "alice"⟩
    ∧ (fetchUserHttpRequest (ascii "sometoken")).headers
        = [("Authorization", ascii "Bearer sometoken")] := by
  refine ⟨fetch_user_factor send token h, rfl, rfl, rfl, ?_, ?_, by decide⟩
  · intro resp u hd
    rw [fetch_user_factor _ token h]
    simp [handleUserResponse, responseJsonAuthDiscordUser, hd]
  · have hd : decodeAuthDiscordUser userDoc
        = Except.ok ⟨ascii "123", ascii "alice"⟩ := by decide
    rw [fetch_user_factor _ (ascii "sometoken") (by decide)]
    simp [handleUserResponse, responseJsonAuthDiscordUser, hd]

/-- C4 (witness): the universally quantified decode clause at a concrete
valid token and response. -/
theorem c4_fetch_user_returns_record_witness :
    fetch_user (fun _ => Except.ok ⟨200, userDoc⟩) (ascii "tok")
      = Except.ok ⟨ascii "123", ascii "alice"⟩ :=
  (c4_fetch_user_returns_record (fun _ => Except.ok ⟨200, userDoc⟩)
      (ascii "tok") 200 (by decide)).2.2.2.2.1 ⟨200, userDoc⟩
    ⟨ascii "123", ascii "alice"⟩ (by decide)

/-- C5: with the empty token the request is still issued, its Authorization
header is exactly "Bearer " and the outcome is whatever the transport and
decode of the endpoint's response produce — no local rejection. -/
theorem c5_fetch_user_empty_token (send : Transport) :
    (fetchUserHttpRequest []).headers = [("Authorization", ascii "Bearer ")]
    ∧ fetch_user send [] = handleUserResponse (send (fetchUserHttpRequest []))
    ∧ (∀ e, send (fetchUserHttpRequest []) = Except.error e →
        fetch_user send [] = Except.error (Error.reqwest e))
    ∧ (∀ resp u, send (fetchUserHttpRequest []) = Except.ok resp →
        decodeAuthDiscordUser resp.body = Except.ok u →
        fetch_user send [] = Except.ok u)
    ∧ (∀ resp e, send (fetchUserHttpRequest []) = Except.ok resp →
        decodeAuthDiscordUser resp.body = Except.error e →
        fetch_user send []
          = Except.error (Error.reqwest (reqwestDecodeError e))) := by
  have hval : isValidHeaderValue (ascii "Bearer " ++ ([] : List Nat)) = true := by
    decide
  refine ⟨by simp [fetchUserHttpRequest], fetch_user_factor send [] hval,
    ?_, ?_, ?_⟩
  · intro e hsend
    rw [fetch_user_factor send [] hval, hsend]
    rfl
  · intro resp u hsend hd
    rw [fetch_user_factor send [] hval, hsend]
    simp [handleUserResponse, responseJsonAuthDiscordUser, hd]
  · intro resp e hsend hd
    rw [fetch_user_factor send [] hval, hsend]
    simp [handleUserResponse, responseJsonAuthDiscordUser, hd, Error.fromReqwest]

/-- C5 (witness): empty token, concrete success and failure endpoints. -/
theorem c5_fetch_user_empty_token_witness :
    fetch_user (fun _ => Except.ok ⟨200, userDoc⟩) []
        = Except.ok ⟨ascii "123", ascii "alice"⟩
    ∧ fetch_user (fun _ => Except.error ⟨"timeout"⟩) []
        = Except.error (Error.reqwest ⟨"timeout"⟩) :=
  ⟨(c5_fetch_user_empty_token (fun _ => Except.ok ⟨200, userDoc⟩)).2.2.2.1
      ⟨200, userDoc⟩ ⟨ascii "123", ascii "alice"⟩ rfl (by decide),
   (c5_fetch_user_empty_token (fun _ => Except.error ⟨"timeout"⟩)).2.2.1
      ⟨"timeout"⟩ rfl⟩

/-- C6: serializing either request kind produces exactly its four declared
fields in order, and form-decoding the encoded string recovers the original
field values (client_id as its exact decimal rendering). -/
theorem c6_urlencoded_roundtrip (r : AccessTokenExchangeRequest)
    (s : RefreshTokenRequest)
    (h1 : allBytes r.client_secret) (h2 : allBytes r.code)
    (h3 : allBytes r.redirect_uri) (h4 : allBytes s.client_secret)
    (h5 : allBytes s.refresh_token) (h6 : allBytes s.redirect_uri) :
    serializeAccessTokenExchangeRequest r
        = Except.ok (formEncodePairs (accessTokenExchangePairs r))
    ∧ formDecode (formEncodePairs (accessTokenExchangePairs r))
        = some (accessTokenExchangePairs r)
    ∧ serializeRefreshTokenRequest s
        = Except.ok (formEncodePairs (refreshTokenPairs s))
    ∧ formDecode (formEncodePairs (refreshTokenPairs s))
        = some (refreshTokenPairs s) := by
  refine ⟨rfl, ?_, rfl, ?_⟩
  · apply formDecode_formEncodePairs
    · simp [accessTokenExchangePairs]
    · intro p hp
      simp only [accessTokenExchangePairs, List.mem_cons,
        List.not_mem_nil, or_false] at hp
      rcases hp with rfl | rfl | rfl | rfl
      · exact ⟨(by decide : allBytes (ascii "client_id")), natBytes_allBytes _⟩
      · exact ⟨(by decide : allBytes (ascii "client_secret")), h1⟩
      · exact ⟨(by decide : allBytes (ascii "code")), h2⟩
      · exact ⟨(by decide : allBytes (ascii "redirect_uri")), h3⟩
  · apply formDecode_formEncodePairs
    · simp [refreshTokenPairs]
    · intro p hp
      simp only [refreshTokenPairs, List.mem_cons,
        List.not_mem_nil, or_false] at hp
      rcases hp with rfl | rfl | rfl | rfl
      · exact ⟨(by decide : allBytes (ascii "client_id")), natBytes_allBytes _⟩
      · exact ⟨(by decide : allBytes (ascii "client_secret")), h4⟩
      · exact ⟨(by decide : allBytes (ascii "refresh_token")), h5⟩
      · exact ⟨(by decide : allBytes (ascii "redirect_uri")), h6⟩

/-- Round-trip witness fixture: a code-exchange request whose fields need
escaping. -/
def sampleExchangeRequest : AccessTokenExchangeRequest :=
  ⟨249608697955745802, ascii "s3cr et+", ascii "co&de=x%",
   ascii "https://app.example/cb?x=1"⟩

/-- Round-trip witness fixture: a refresh request whose fields need
escaping. -/
def sampleRefreshRequest : RefreshTokenRequest :=
  ⟨7, ascii "sec", ascii "ref resh&", ascii "https://x.example/r"⟩

/-- C6 (witness): the round trip at concrete requests with characters that
require percent-encoding. -/
theorem c6_urlencoded_roundtrip_witness :
    formDecode (formEncodePairs (accessTokenExchangePairs sampleExchangeRequest))
        = some (accessTokenExchangePairs sampleExchangeRequest)
    ∧ formDecode (formEncodePairs (refreshTokenPairs sampleRefreshRequest))
        = some (refreshTokenPairs sampleRefreshRequest) :=
  ⟨(c6_urlencoded_roundtrip sampleExchangeRequest sampleRefreshRequest
      (by decide) (by decide) (by decide) (by decide) (by decide) (by decide)).2.1,
   (c6_urlencoded_roundtrip sampleExchangeRequest sampleRefreshRequest
      (by decide) (by decide) (by decide) (by decide) (by decide) (by decide)).2.2.2⟩


/-- C7 (code bug): `exchange_refresh_token` never performs the claimed
POST-and-decode sequence.  Like `exchange_code`, it serializes its request
successfully, then fails at `send()` with the stored query builder error —
identically for both operations — before any request is issued or any
response decoded. -/
theorem c7_both_exchanges_fail_before_sending (send : Transport)
    (r : RefreshTokenRequest) (c : AccessTokenExchangeRequest) :
    serializeRefreshTokenRequest r
        = Except.ok (formEncodePairs (refreshTokenPairs r))
    ∧ ((ReqwestClient.post BASE_TOKEN_URI).query
          (formEncodePairs (refreshTokenPairs r))).request
        = Except.error queryBuilderError
    ∧ exchange_refresh_token send r
        = Except.error (Error.reqwest queryBuilderError)
    ∧ exchange_refresh_token send r = exchange_code send c := by
  refine ⟨rfl, rfl, exchange_refresh_token_always_builder_error send r, ?_⟩
  rw [exchange_refresh_token_always_builder_error,
    exchange_code_always_builder_error]

/-- C8 (counterexample): at a delivered body that does not parse as the
expected shape, the error returned is the `Reqwest` variant wrapping
reqwest's decode error — not the `Json` variant the claim assigns to decode
failures. -/
theorem c8_counterexample_decode_surfaces_as_reqwest :
    fetch_user (fun _ => Except.ok ⟨200, ascii "[]"⟩) []
      = Except.error (Error.reqwest
          (reqwestDecodeError ⟨"response body is not a JSON object"⟩)) := by
  decide

/-- Every error `fetch_user` returns is the `Reqwest` variant: builder
(header) errors, transport errors and body-decode errors all arrive as
`reqwest::Error`. -/
theorem fetch_user_error_is_reqwest (send : Transport) (t : List Nat)
    (err : Error) (h : fetch_user send t = Except.error err) :
    ∃ e, err = Error.reqwest e := by
  cases hval : isValidHeaderValue (ascii "Bearer " ++ t) with
  | false =>
    rw [fetch_user_invalid_header send t hval] at h
    cases h
    exact ⟨_, rfl⟩
  | true =>
    rw [fetch_user_factor send t hval] at h
    cases hs : send (fetchUserHttpRequest t) with
    | error e2 =>
      rw [hs] at h
      cases h
      exact ⟨_, rfl⟩
    | ok resp =>
      rw [hs] at h
      cases hd : responseJsonAuthDiscordUser resp.body with
      | error e2 =>
        rw [show handleUserResponse (Except.ok resp)
            = Except.error (Error.reqwest e2) from by
          simp [handleUserResponse, hd, Error.fromReqwest]] at h
        cases h
        exact ⟨_, rfl⟩
      | ok v =>
        rw [show handleUserResponse (Except.ok resp) = Except.ok v from by
          simp [handleUserResponse, hd]] at h
        cases h

/-- C8 (amended): every failure is returned as a value of the closed
three-variant union and each `From` conversion carries its cause unchanged,
but in this bridge every failure surfaces through the transport (`Reqwest`)
variant: serialization of these flat requests never fails (no encode error),
the exchanges fail with the stored query builder error before any network
call, `fetch_user` fails with the stored header error on an invalid token or
propagates the transport error, and a non-parsing body yields reqwest's
decode error — the `Json` and `UrlEncode` variants are never produced. -/
theorem c8_failures_surface_as_reqwest :
    (∀ err : Error, (∃ e, err = Error.reqwest e) ∨ (∃ e, err = Error.json e)
      ∨ (∃ e, err = Error.urlEncode e))
    ∧ (∀ e, Error.fromReqwest e = Error.reqwest e)
    ∧ (∀ e, Error.fromJson e = Error.json e)
    ∧ (∀ e, Error.fromUrlEncode e = Error.urlEncode e)
    ∧ (∀ r, serializeAccessTokenExchangeRequest r
        = Except.ok (formEncodePairs (accessTokenExchangePairs r)))
    ∧ (∀ s, serializeRefreshTokenRequest s
        = Except.ok (formEncodePairs (refreshTokenPairs s)))
    ∧ (∀ send r, exchange_code send r
        = Except.error (Error.reqwest queryBuilderError))
    ∧ (∀ send rr, exchange_refresh_token send rr
        = Except.error (Error.reqwest queryBuilderError))
    ∧ (∀ send t, isValidHeaderValue (ascii "Bearer " ++ t) = false →
        fetch_user send t = Except.error (Error.reqwest invalidHeaderValueError))
    ∧ (∀ send t e, isValidHeaderValue (ascii "Bearer " ++ t) = true →
        send (fetchUserHttpRequest t) = Except.error e →
        fetch_user send t = Except.error (Error.reqwest e))
    ∧ (∀ send t resp e, isValidHeaderValue (ascii "Bearer " ++ t) = true →
        send (fetchUserHttpRequest t) = Except.ok resp →
        decodeAuthDiscordUser resp.body = Except.error e →
        fetch_user send t
          = Except.error (Error.reqwest (reqwestDecodeError e)))
    ∧ (∀ send r e, ¬exchange_code send r = Except.error (Error.json e))
    ∧ (∀ send r e, ¬exchange_code send r = Except.error (Error.urlEncode e))
    ∧ (∀ send rr e, ¬exchange_refresh_token send rr
        = Except.error (Error.json e))
    ∧ (∀ send rr e, ¬exchange_refresh_token send rr
        = Except.error (Error.urlEncode e))
    ∧ (∀ send t e, ¬fetch_user send t = Except.error (Error.json e))
    ∧ (∀ send t e, ¬fetch_user send t = Except.error (Error.urlEncode e)) := by
  refine ⟨?_, fun _ => rfl, fun _ => rfl, fun _ => rfl, fun _ => rfl,
    fun _ => rfl, fun send r => exchange_code_always_builder_error send r,
    fun send rr => exchange_refresh_token_always_builder_error send rr,
    fun send t hval => fetch_user_invalid_header send t hval,
    ?_, ?_, ?_, ?_, ?_, ?_, ?_, ?_⟩
  · intro err
    cases err with
    | reqwest e => exact Or.inl ⟨e, rfl⟩
    | json e => exact Or.inr (Or.inl ⟨e, rfl⟩)
    | urlEncode e => exact Or.inr (Or.inr ⟨e, rfl⟩)
  · intro send t e hval hsend
    rw [fetch_user_factor send t hval, hsend]
    rfl
  · intro send t resp e hval hsend hd
    rw [fetch_user_factor send t hval, hsend]
    simp [handleUserResponse, responseJsonAuthDiscordUser, hd, Error.fromReqwest]
  · intro send r e hv
    rw [exchange_code_always_builder_error] at hv
    simp at hv
  · intro send r e hv
    rw [exchange_code_always_builder_error] at hv
    simp at hv
  · intro send rr e hv
    rw [exchange_refresh_token_always_builder_error] at hv
    simp at hv
  · intro send rr e hv
    rw [exchange_refresh_token_always_builder_error] at hv
    simp at hv
  · intro send t e hv
    obtain ⟨e2, he⟩ := fetch_user_error_is_reqwest send t (Error.json e) hv
    cases he
  · intro send t e hv
    obtain ⟨e2, he⟩ := fetch_user_error_is_reqwest send t (Error.urlEncode e) hv
    cases he

/-- C8 (witness): a concrete decode failure surfaces as the Reqwest
variant. -/
theorem c8_failures_surface_as_reqwest_witness :
    fetch_user (fun _ => Except.ok ⟨200, ascii "42"⟩) []
      = Except.error (Error.reqwest
          (reqwestDecodeError ⟨"response body is not a JSON object"⟩)) := by
  obtain ⟨-, -, -, -, -, -, -, -, -, -, hdec, -⟩ := c8_failures_surface_as_reqwest
  exact hdec (fun _ => Except.ok ⟨200, ascii "42"⟩) [] ⟨200, ascii "42"⟩
    ⟨"response body is not a JSON object"⟩ (by decide) rfl (by decide)

/-- Transport outcomes that differ at most in the response status code. -/
def SameBody : Except ReqwestError HttpResponse → Except ReqwestError HttpResponse → Prop
  | Except.error e1, Except.error e2 => e1 = e2
  | Except.ok r1, Except.ok r2 => r1.body = r2.body
  | _, _ => False

/-- Response handling cannot tell status-differing outcomes apart. -/
theorem handleUser_sameBody (a b : Except ReqwestError HttpResponse)
    (h : SameBody a b) :
    handleUserResponse a = handleUserResponse b := by
  cases a with
  | error e1 =>
    cases b with
    | error e2 =>
      have he : e1 = e2 := h
      rw [he]
    | ok r2 => exact absurd h (fun hf => hf)
  | ok r1 =>
    cases b with
    | error e2 => exact absurd h (fun hf => hf)
    | ok r2 =>
      have he : r1.body = r2.body := h
      simp [handleUserResponse, he]

/-- C9: no operation inspects the response status code — two transports
whose outcomes agree on errors and on response bodies (the statuses may
differ arbitrarily) give identical results for all three operations. -/
theorem c9_status_not_inspected (t1 t2 : Transport)
    (h : ∀ q, SameBody (t1 q) (t2 q))
    (r : AccessTokenExchangeRequest) (rr : RefreshTokenRequest)
    (token : List Nat) :
    exchange_code t1 r = exchange_code t2 r
    ∧ exchange_refresh_token t1 rr = exchange_refresh_token t2 rr
    ∧ fetch_user t1 token = fetch_user t2 token := by
  refine ⟨?_, ?_, ?_⟩
  · rw [exchange_code_always_builder_error, exchange_code_always_builder_error]
  · rw [exchange_refresh_token_always_builder_error,
      exchange_refresh_token_always_builder_error]
  · cases hval : isValidHeaderValue (ascii "Bearer " ++ token) with
    | false =>
      rw [fetch_user_invalid_header t1 token hval,
        fetch_user_invalid_header t2 token hval]
    | true =>
      rw [fetch_user_factor t1 token hval, fetch_user_factor t2 token hval]
      exact handleUser_sameBody _ _ (h _)

/-- C9 (witness): a 200 and a 404 delivery of the same body give the same
result. -/
theorem c9_status_not_inspected_witness :
    exchange_code (fun _ => Except.ok ⟨200, tokenDoc⟩) ⟨1, [], [], []⟩
      = exchange_code (fun _ => Except.ok ⟨404, tokenDoc⟩) ⟨1, [], [], []⟩ :=
  (c9_status_not_inspected (fun _ => Except.ok ⟨200, tokenDoc⟩)
    (fun _ => Except.ok ⟨404, tokenDoc⟩) (fun _ => rfl)
    ⟨1, [], [], []⟩ ⟨1, [], [], []⟩ []).1

/-- C10: the Display rendering of every `Error` is exactly the description
of the single cause it wraps, with nothing added by the wrapper. -/
theorem c10_display_is_cause_description :
    (∀ i : ReqwestError, Error.display (Error.reqwest i) = i.description)
    ∧ (∀ i : JsonError, Error.display (Error.json i) = i.description)
    ∧ (∀ i : UrlEncodeError, Error.display (Error.urlEncode i) = i.description) :=
  ⟨fun _ => rfl, fun _ => rfl, fun _ => rfl⟩
